import Mathlib

/-!
Verification model of the AI_Media_Agent backend (src/后端代码/main.py).

The backend is a Flask application over a single SQLite table `documents`.
We embed it shallowly:

* the SQLite table becomes an explicit state `DB` (row list in insertion
  order, next AUTOINCREMENT id, a wall clock for CURRENT_TIMESTAMP);
* Python/JSON values become the inductive `JsonVal`; `json.dumps` with
  `ensure_ascii=False` becomes the executable `dumps`;
* storage faults (the `except` branch of `add_document`) are modelled by an
  explicit per-call fault flag, and the wall clock advances by an explicit
  per-call non-negative increment (CURRENT_TIMESTAMP is non-decreasing);
* SQL `data LIKE '%text%'` is modelled by `sqlLike`, with SQLite default
  semantics: `%`/`_` wildcards and ASCII-only case-insensitivity;
* `ORDER BY created_time DESC` is modelled by a stable insertion sort on the
  scan (insertion) order, matching SQLite's table-scan tie behaviour;
* `json.loads` (library code) is a parameter `loads : String → Option JsonVal`
  of the query result mapping; a parse failure is `none`;
* fallible handler code returns `Except`, where `.error` is an uncaught
  Python exception (Flask turns it into an HTTP 500 response); the exception
  message text itself is not modelled.
-/

/-- JSON / deserialized-Python values.  JSON numbers are modelled as integers
(the claims under study never depend on float formatting). -/
inductive JsonVal where
  | null : JsonVal
  | bool : Bool → JsonVal
  | num : Int → JsonVal
  | str : String → JsonVal
  | arr : List JsonVal → JsonVal
  | obj : List (String × JsonVal) → JsonVal

/-- ASCII-only lower-casing of a character (SQLite `LIKE` folds only A–Z;
CPython's `str.lower` agrees on ASCII and on the CJK text used here). -/
def asciiLower (c : Char) : Char :=
  if 'A' ≤ c ∧ c ≤ 'Z' then Char.ofNat (c.toNat + 32) else c

/-- Lower-casing of a string, character by character (Python `text.lower()`). -/
def toLowerStr (s : String) : String :=
  String.mk (s.data.map asciiLower)

/-- Is the first character list a prefix of the second (char-exact)? -/
def isPrefixCL : List Char → List Char → Bool
  | [], _ => true
  | _ :: _, [] => false
  | a :: as, b :: bs => a == b && isPrefixCL as bs

/-- Is the first character list a contiguous sublist of the second?
This is Python's `needle in haystack` on strings. -/
def isSubstrCL (n : List Char) : List Char → Bool
  | [] => n.isEmpty
  | c :: t => isPrefixCL n (c :: t) || isSubstrCL n t

/-- Python's `needle in haystack` substring test on strings. -/
def isSubstrS (n h : String) : Bool := isSubstrCL n.data h.data

/-- Fuel-bounded core of SQL `LIKE` pattern matching, SQLite default
semantics: `%` matches any sequence, `_` any single character, and the
comparison of ordinary characters is ASCII-case-insensitive.  Every
recursive call consumes one unit of fuel while shortening the combined
input, so fuel exceeding the combined input length is never exhausted. -/
def likeMatchF : Nat → List Char → List Char → Bool
  | 0, _, _ => false
  | _ + 1, [], [] => true
  | _ + 1, [], _ :: _ => false
  | fuel + 1, p :: ps, s =>
    if p == '%' then
      likeMatchF fuel ps s ||
        (match s with
         | [] => false
         | _ :: s2 => likeMatchF fuel (p :: ps) s2)
    else
      match s with
      | [] => false
      | c :: cs =>
        if p == '_' then likeMatchF fuel ps cs
        else asciiLower p == asciiLower c && likeMatchF fuel ps cs

/-- SQL `LIKE` over character lists (fuel sized to the whole input). -/
def likeMatch (p s : List Char) : Bool :=
  likeMatchF (p.length + s.length + 1) p s

/-- SQL `LIKE` on strings. -/
def sqlLike (pat s : String) : Bool := likeMatch pat.data s.data

/-- Hex digit character (lower case, as produced by `json.dumps`). -/
def hexDig (d : Nat) : Char :=
  if d < 10 then Char.ofNat (48 + d) else Char.ofNat (87 + d)

/-- Four-digit hexadecimal rendering used in `\uXXXX` escapes. -/
def hex4 (n : Nat) : String :=
  String.mk [hexDig (n / 4096 % 16), hexDig (n / 256 % 16),
             hexDig (n / 16 % 16), hexDig (n % 16)]

/-- Escape one character as `json.dumps` does inside a string literal
(`ensure_ascii=False`: non-ASCII characters pass through unescaped). -/
def escChar (c : Char) : String :=
  if c == '"' then "\\\""
  else if c == '\\' then "\\\\"
  else if c == '\n' then "\\n"
  else if c == '\t' then "\\t"
  else if c == '\r' then "\\r"
  else if c.toNat == 8 then "\\b"
  else if c.toNat == 12 then "\\f"
  else if c.toNat < 32 then "\\u" ++ hex4 c.toNat
  else String.mk [c]

/-- Escape a whole string body as `json.dumps` does. -/
def escString (s : String) : String :=
  String.join (s.data.map escChar)

mutual

/-- Python `json.dumps(v, ensure_ascii=False)`: the default separators are
`", "` between items and `": "` after keys; insertion order is kept. -/
def dumps : JsonVal → String
  | .null => "null"
  | .bool b => if b then "true" else "false"
  | .num n => toString n
  | .str s => "\"" ++ escString s ++ "\""
  | .arr xs => "[" ++ dumpsArr xs ++ "]"
  | .obj kvs => "\x7b" ++ dumpsObj kvs ++ "\x7d"

/-- Comma-joined rendering of array elements. -/
def dumpsArr : List JsonVal → String
  | [] => ""
  | [x] => dumps x
  | x :: y :: rest => dumps x ++ ", " ++ dumpsArr (y :: rest)

/-- Comma-joined rendering of object members. -/
def dumpsObj : List (String × JsonVal) → String
  | [] => ""
  | [(k, v)] => "\"" ++ escString k ++ "\": " ++ dumps v
  | (k, v) :: y :: rest =>
      "\"" ++ escString k ++ "\": " ++ dumps v ++ ", " ++ dumpsObj (y :: rest)

end

/-- One row of the `documents` table.  `created_time` is an abstract
non-decreasing timestamp (CURRENT_TIMESTAMP renders chronologically
ordered text, so ordering by the text is ordering by this number). -/
structure Row where
  id : Nat
  doc_type : Option String
  identifier : Option String
  data : String
  created_time : Nat
deriving DecidableEq, Repr

/-- The database state: rows in insertion (rowid) order, the next
AUTOINCREMENT id, and the current wall-clock reading. -/
structure DB where
  rows : List Row
  nextId : Nat
  clock : Nat
deriving DecidableEq, Repr

/-- Model of `init_database()`: an empty `documents` table; SQLite AUTOINCREMENT
starts assigning ids at 1. -/
def init_database : DB := { rows := [], nextId := 1, clock := 0 }

/-- Can this Python value be bound as an SQLite parameter?  `None`, bools,
numbers and strings can; lists and dicts raise, which `add_document`
catches and reports as a failed insert. -/
def bindable : JsonVal → Bool
  | .obj _ => false
  | .arr _ => false
  | _ => true

/-- The TEXT-affinity value actually stored for a bound parameter:
NULL stays NULL, text stays itself, numbers (and bools, which bind as
integers) are converted to their decimal text. -/
def toBindText : JsonVal → Option String
  | .null => none
  | .str s => some s
  | .num n => some (toString n)
  | .bool b => some (if b then "1" else "0")
  | .arr _ => none
  | .obj _ => none

/-- Model of `add_document(doc_type, identifier, data_dict)`.  `fault` is true when
the storage layer raises (the `except` branch: returns `(False, None)` and
inserts nothing); `dt` is how far the wall clock has advanced since the
previous operation.  On success the row is appended with the next id and
the current timestamp and `(True, new_id)` is returned. -/
def add_document (fault : Bool) (dt : Nat) (doc_type identifier data_dict : JsonVal)
    (db : DB) : (Bool × Option Nat) × DB :=
  let clock2 := db.clock + dt
  if fault || !bindable doc_type || !bindable identifier then
    ((false, none), { db with clock := clock2 })
  else
    ((true, some db.nextId),
     { rows := db.rows ++
         [{ id := db.nextId, doc_type := toBindText doc_type,
            identifier := toBindText identifier,
            data := dumps data_dict, created_time := clock2 }],
       nextId := db.nextId + 1, clock := clock2 })

/-- The SQL WHERE clause built by `query_documents`: an exact `doc_type`
filter and a `data LIKE '%search_text%'` filter, each added only when the
corresponding Python argument is truthy (not `None` and not `""`). -/
def rowMatches (search_text doc_type : Option String) (r : Row) : Bool :=
  (match doc_type with
   | none => true
   | some d => if d == "" then true else r.doc_type == some d) &&
  (match search_text with
   | none => true
   | some s => if s == "" then true else sqlLike ("%" ++ s ++ "%") r.data)

/-- Newest-first comparison used by `ORDER BY created_time DESC`. -/
def newerFirst (a b : Row) : Prop := b.created_time ≤ a.created_time

instance : DecidableRel newerFirst :=
  fun a b => Nat.decLe b.created_time a.created_time

instance : IsTotal Row newerFirst :=
  ⟨fun a b => Nat.le_total b.created_time a.created_time⟩

instance : IsTrans Row newerFirst :=
  ⟨fun _ _ _ h1 h2 => le_trans h2 h1⟩

/-- The SQL part of `query_documents`: filter, sort newest first (stable on
the table-scan order, which is insertion order), apply LIMIT. -/
def query_rows (search_text doc_type : Option String) (limit : Nat) (db : DB) :
    List Row :=
  (List.insertionSort newerFirst (db.rows.filter (rowMatches search_text doc_type))).take limit

/-- One element of the list `query_documents` returns. -/
structure Doc where
  id : Nat
  doc_type : Option String
  identifier : Option String
  data : JsonVal
  created_time : Nat

/-- The Python loop body of `query_documents`: `json.loads` the stored text,
falling back to the raw text when parsing raises.  `loads` abstracts the
standard-library JSON parser. -/
def toDoc (loads : String → Option JsonVal) (r : Row) : Doc :=
  { id := r.id, doc_type := r.doc_type, identifier := r.identifier,
    data := match loads r.data with
            | some v => v
            | none => .str r.data,
    created_time := r.created_time }

/-- Model of `query_documents(search_text, doc_type, limit)`. -/
def query_documents (loads : String → Option JsonVal)
    (search_text doc_type : Option String) (limit : Nat) (db : DB) : List Doc :=
  (query_rows search_text doc_type limit db).map (toDoc loads)

/-- The query-indicating keyword list of `AIAgent.analyze`. -/
def query_keywords : List String := ["查询", "查找", "搜索", "有哪些"]

/-- The store-indicating keyword list of `AIAgent.analyze`. -/
def store_keywords : List String := ["记录", "添加", "保存"]

/-- Model of `AIAgent.analyze(text)`: lower-case the text, return "query" when any
query keyword occurs, else "store" when any store keyword occurs, else
"query". -/
def analyze (text : String) : String :=
  let tl := toLowerStr text
  if query_keywords.any (fun k => isSubstrS k tl) then "query"
  else if store_keywords.any (fun k => isSubstrS k tl) then "store"
  else "query"

/-- Python `"error" in res` on a deserialized JSON value: key membership for
dicts, element membership for lists, substring for strings; a TypeError
(modelled as `.error ()`) for the non-container values. -/
def pyContainsKey (k : String) : JsonVal → Except Unit Bool
  | .obj kvs => .ok (kvs.any (fun kv => kv.1 == k))
  | .arr xs => .ok (xs.any (fun v => match v with
      | .str s => s == k
      | _ => false))
  | .str s => .ok (isSubstrS k s)
  | _ => .error ()

/-- Python `res[k]` for a string key, outside any try: KeyError for a dict
without the key, TypeError for any non-dict. -/
def pyGetItem (v : JsonVal) (k : String) : Except Unit JsonVal :=
  match v with
  | .obj kvs =>
    match kvs.lookup k with
    | some x => .ok x
    | none => .error ()
  | _ => .error ()

/-- Python `a + v` where `a` is a string: TypeError unless `v` is a string. -/
def pyStrAdd (a : String) : JsonVal → Except Unit JsonVal
  | .str s => .ok (.str (a ++ s))
  | _ => .error ()

/-- Python `v[k]` for a string key inside the guarded `try`: any raise is
mapped to `none`. -/
def tryIndexS (v : JsonVal) (k : String) : Option JsonVal :=
  match v with
  | .obj kvs => kvs.lookup k
  | _ => none

/-- Python `v[0]` inside the guarded `try`: first list element, first
character of a string (as a one-character string), `none` otherwise. -/
def tryIndex0 (v : JsonVal) : Option JsonVal :=
  match v with
  | .arr (x :: _) => some x
  | .str s =>
    match s.data with
    | c :: _ => some (.str (String.mk [c]))
    | [] => none
  | _ => none

/-- The guarded access `res["choices"][0]["message"]["content"]`. -/
def extract_content (res : JsonVal) : Option JsonVal :=
  (tryIndexS res "choices").bind fun c =>
    (tryIndex0 c).bind fun m =>
      (tryIndexS m "message").bind fun mm =>
        tryIndexS mm "content"

/-- Model of `AIAgent.reply`, applied to the value `chat_completion` returned.
Only the final chained access is inside a `try`; the `error` branch's
string concatenation and the `in` test are unguarded, so they can raise
(`.error ()` = an exception that escapes the handler). -/
def reply (res : JsonVal) : Except Unit JsonVal :=
  match pyContainsKey "error" res with
  | .error _ => .error ()
  | .ok true =>
    match pyGetItem res "error" with
    | .error _ => .error ()
    | .ok v => pyStrAdd "AI 服务错误：" v
  | .ok false =>
    match extract_content res with
    | some v => .ok v
    | none => .ok (.str "AI 响应解析失败")

/-- Model of `DeepSeekAPI.chat_completion`: the whole HTTP exchange is inside a
`try`; `network` is `.ok body` when the POST returned 2xx with a parsable
JSON body, `.error msg` when anything raised (connection error, non-2xx
status, unparsable body).  The raise is converted to `{"error": str(e)}`. -/
def chat_completion (network : Except String JsonVal) : JsonVal :=
  match network with
  | .ok j => j
  | .error e => .obj [("error", .str e)]

/-- An HTTP response: status code plus the JSON body `jsonify` produced. -/
structure HttpResp where
  status : Nat
  body : JsonVal

/-- Conversion of `None`-or-string values passed on to storage. -/
def optStr : Option String → JsonVal
  | none => .null
  | some s => .str s

/-- The `/api/chat` handler.  `user_msg` is the request's `message` field,
`name` the result of `extract_name`, `timeStr` the `datetime.now()`
rendering, `network` the outcome of the outbound HTTP call, and
`fault`/`dt` the storage-fault and clock environment of the (at most one)
insert.  An `.error db2` result is an exception escaping the handler, which
Flask reports as a 500 server fault; `db2` is the storage state left behind. -/
def chat (fault : Bool) (dt : Nat) (timeStr : String) (user_msg : String)
    (name : Option String) (network : Except String JsonVal) (db : DB) :
    Except DB (HttpResp × DB) :=
  let intent := analyze user_msg
  let db2 :=
    if intent = "query" then db
    else (add_document fault dt (.str "record") (optStr name)
            (.obj [("student_name", optStr name), ("content", .str user_msg),
                   ("time", .str timeStr)]) db).2
  match reply (chat_completion network) with
  | .ok v => .ok (⟨200, .obj [("status", .str "success"), ("response", v)]⟩, db2)
  | .error _ => .error db2

/-- Python `kvs.get(k)`: the value when present, `None` otherwise. -/
def dict_get (kvs : List (String × JsonVal)) (k : String) : JsonVal :=
  match kvs.lookup k with
  | some v => v
  | none => .null

/-- The `/api/record` handler.  A non-object JSON body makes `data.get`
raise (there is no try in this handler), modelled as `.error db`. -/
def api_record (fault : Bool) (dt : Nat) (timeStr : String) (body : JsonVal)
    (db : DB) : Except DB (HttpResp × DB) :=
  match body with
  | .obj kvs =>
    let student_name := dict_get kvs "student_name"
    let record_type := (kvs.lookup "record_type").getD (.str "record")
    let content := dict_get kvs "content"
    let record : JsonVal :=
      .obj [("student_name", student_name), ("record_type", record_type),
            ("content", content), ("time", .str timeStr)]
    let res := add_document fault dt (.str "record") student_name record db
    if res.1.1 then
      .ok (⟨200, .obj [("status", .str "success"), ("message", .str "记录已添加")]⟩, res.2)
    else
      .ok (⟨200, .obj [("status", .str "error"), ("message", .str "添加失败")]⟩, res.2)
  | _ => .error db

/-- Does the item carry an explicit `data` object (`"data" in it and
isinstance(it["data"], dict)`)? -/
def hasDataObj (kvs : List (String × JsonVal)) : Bool :=
  match kvs.lookup "data" with
  | some (.obj _) => true
  | _ => false

/-- The `data` dict stored for one JSON import item: the explicit `data`
object when present, otherwise every field except the reserved keys
`doc_type` and `identifier`. -/
def build_data (kvs : List (String × JsonVal)) : JsonVal :=
  match kvs.lookup "data" with
  | some (.obj d) => .obj d
  | _ => .obj (kvs.filter (fun kv => !(kv.1 == "doc_type" || kv.1 == "identifier")))

/-- One entry of the JSON-import `details` list: the echoed item, the
per-item success flag, and the id the insert assigned. -/
structure Detail where
  item : JsonVal
  ok : Bool
  newId : Option Nat

/-- The JSON object appended to `results` for one item. -/
def detailToJson (d : Detail) : JsonVal :=
  if d.ok then
    .obj [("item", d.item), ("status", .str "ok"),
          ("id", match d.newId with
                 | some n => .num (Int.ofNat n)
                 | none => .null)]
  else
    .obj [("item", d.item), ("status", .str "fail")]

/-- The JSON-array import loop.  Each iteration consumes one
`(fault, dt)` environment entry.  An item that is not an object makes
`it.get` raise an AttributeError; nothing catches it inside the loop, so
the whole request aborts (`.error` carries the storage state, which keeps
the rows already committed). -/
def import_items (envs : List (Bool × Nat)) (items : List JsonVal) (db : DB) :
    Except DB (List Detail × Nat × Nat × DB) :=
  match items with
  | [] => .ok ([], 0, 0, db)
  | it :: rest =>
    match it with
    | .obj kvs =>
      let e := envs.headD (false, 0)
      let res := add_document e.1 e.2 (dict_get kvs "doc_type")
                   (dict_get kvs "identifier") (build_data kvs) db
      match import_items envs.tail rest res.2 with
      | .ok (ds, s, f, db2) =>
        if res.1.1 then .ok (⟨it, true, res.1.2⟩ :: ds, s + 1, f, db2)
        else .ok (⟨it, false, res.1.2⟩ :: ds, s, f + 1, db2)
      | .error dbE => .error dbE
    | _ => .error db

/-- Python `row.get(k) or None` on a CSV row: missing and empty both
become `None`. -/
def csv_get (row : List (String × String)) (k : String) : JsonVal :=
  match row.lookup k with
  | some v => if v == "" then .null else .str v
  | none => .null

/-- The `data` dict stored for one CSV row: every column except
`doc_type`/`identifier`, all values as strings. -/
def build_csv_data (row : List (String × String)) : JsonVal :=
  .obj ((row.filter (fun kv => !(kv.1 == "doc_type" || kv.1 == "identifier"))).map
          (fun kv => (kv.1, JsonVal.str kv.2)))

/-- One entry of the CSV-import `details` list. -/
structure CsvDetail where
  row : List (String × String)
  ok : Bool
  newId : Option Nat

/-- The JSON object appended to `results` for one CSV row. -/
def csvDetailToJson (d : CsvDetail) : JsonVal :=
  if d.ok then
    .obj [("row", .obj (d.row.map (fun kv => (kv.1, JsonVal.str kv.2)))),
          ("status", .str "ok"),
          ("id", match d.newId with
                 | some n => .num (Int.ofNat n)
                 | none => .null)]
  else
    .obj [("row", .obj (d.row.map (fun kv => (kv.1, JsonVal.str kv.2)))),
          ("status", .str "fail")]

/-- The CSV import loop (rows as `csv.DictReader` yields them for records
matching the header).  Nothing in this loop can raise. -/
def import_rows (envs : List (Bool × Nat)) (rows : List (List (String × String)))
    (db : DB) : List CsvDetail × Nat × Nat × DB :=
  match rows with
  | [] => ([], 0, 0, db)
  | row :: rest =>
    let e := envs.headD (false, 0)
    let res := add_document e.1 e.2 (csv_get row "doc_type")
                 (csv_get row "identifier") (build_csv_data row) db
    match import_rows envs.tail rest res.2 with
    | (ds, s, f, db2) =>
      if res.1.1 then (⟨row, true, res.1.2⟩ :: ds, s + 1, f, db2)
      else (⟨row, false, res.1.2⟩ :: ds, s, f + 1, db2)

/-- The request shapes `/api/import` distinguishes.  `request.is_json`
checks only the mimetype, so a JSON-content-type request splits further on
whether its body parses: `json v` is a parsable body (the value
`request.get_json()` returns), while `badJson` is a JSON-mimetype request
whose body is malformed or empty, where `get_json()` itself raises
BadRequest — inside the handler's `try`.  `file` is a multipart upload
with a `file` field, `other` anything else. -/
inductive ImportRequest where
  | json (v : JsonVal)
  | badJson
  | file (rows : List (List (String × String)))
  | other

/-- The success envelope of an import. -/
def importOkBody (succ fail : Nat) (details : List JsonVal) : JsonVal :=
  .obj [("status", .str "success"),
        ("summary", .obj [("success", .num (Int.ofNat succ)),
                          ("fail", .num (Int.ofNat fail))]),
        ("details", .arr details)]

/-- The `/api/import` handler.  The 500 branches are the handler-wide
`except Exception` (the exception's message text is not modelled): it
catches both the in-loop raise on a non-object item and the BadRequest
that `request.get_json()` raises on a JSON-mimetype body that fails to
parse, answering 500 in both cases. -/
def api_import (envs : List (Bool × Nat)) (req : ImportRequest) (db : DB) :
    HttpResp × DB :=
  match req with
  | .json v =>
    match v with
    | .arr items =>
      match import_items envs items db with
      | .ok (ds, s, f, db2) => (⟨200, importOkBody s f (ds.map detailToJson)⟩, db2)
      | .error db2 => (⟨500, .obj [("status", .str "error")]⟩, db2)
    | _ => (⟨400, .obj [("status", .str "error"), ("message", .str "JSON 必须是数组")]⟩, db)
  | .badJson => (⟨500, .obj [("status", .str "error")]⟩, db)
  | .file rows =>
    match import_rows envs rows db with
    | (ds, s, f, db2) => (⟨200, importOkBody s f (ds.map csvDetailToJson)⟩, db2)
  | .other =>
    (⟨400, .obj [("status", .str "error"), ("message", .str "请上传 JSON 数组或 CSV 文件")]⟩, db)

/-- One insert request, for reasoning about arbitrary insert sequences:
its storage-fault flag, clock advance, and the three arguments. -/
structure InsertReq where
  fault : Bool
  dt : Nat
  doc_type : JsonVal
  identifier : JsonVal
  data_dict : JsonVal

/-- Run a sequence of `add_document` calls. -/
def runInserts : List InsertReq → DB → DB
  | [], db => db
  | q :: qs, db =>
    runInserts qs (add_document q.fault q.dt q.doc_type q.identifier q.data_dict db).2

/-- Is this JSON value an object (a Python dict after parsing)? -/
def isObjB : JsonVal → Bool
  | .obj _ => true
  | _ => false

/-- Is this JSON value an array (a Python list after parsing)? -/
def isArrB : JsonVal → Bool
  | .arr _ => true
  | _ => false

/-- Look a top-level field up in a JSON-object response body. -/
def bodyField (r : HttpResp) (k : String) : Option JsonVal :=
  match r.body with
  | .obj kvs => kvs.lookup k
  | _ => none

/-- The storage invariant: ids are bounded by the AUTOINCREMENT counter and
strictly increasing along the row list, timestamps are bounded by the clock
and non-decreasing along the row list. -/
def dbInv (db : DB) : Prop :=
  (∀ r ∈ db.rows, r.id < db.nextId) ∧
  (∀ r ∈ db.rows, r.created_time ≤ db.clock) ∧
  List.Chain' (fun a b => a.id < b.id) db.rows ∧
  List.Chain' (fun a b => a.created_time ≤ b.created_time) db.rows

/-- A stored row whose payload text is not valid JSON, for exercising the
deserialization fallback. -/
def rawRow : Row :=
  { id := 1, doc_type := some "student", identifier := none,
    data := "not json", created_time := 3 }

/-- A one-row store holding `rawRow`. -/
def dbRawRow : DB := { rows := [rawRow], nextId := 2, clock := 3 }

/-- A store holding one document whose payload contains an upper-to-lower
case variant of the search text. -/
def dbLikeCex : DB :=
  (add_document false 1 (.str "x") .null (.obj [("k", .str "a")]) init_database).2

/-- The row `dbLikeCex` holds. -/
def likeCexRow : Row :=
  { id := 1, doc_type := some "x", identifier := none,
    data := "\x7b\"k\": \"a\"\x7d", created_time := 1 }

/-- A store with one document of doc_type "x". -/
def dbEmptyFilterCex : DB :=
  (add_document false 1 (.str "x") .null (.obj []) init_database).2

/-- The row `dbEmptyFilterCex` holds. -/
def emptyFilterRow : Row :=
  { id := 1, doc_type := some "x", identifier := none,
    data := "\x7b\x7d", created_time := 1 }

/-- A store produced by 51 inserts within the same clock second. -/
def db51 : DB :=
  runInserts (List.replicate 51 ⟨false, 0, .null, .null, .obj []⟩) init_database

/-- The outcome of the JSON import loop, with a failed loop collapsed to an
empty summary (`api_import` never reads these components on failure). -/
def importResult (envs : List (Bool × Nat)) (items : List JsonVal) (db : DB) :
    List Detail × Nat × Nat × DB :=
  match import_items envs items db with
  | .ok r => r
  | .error dbE => ([], 0, 0, dbE)

/-- The details list the JSON import loop produced. -/
def importDetails (envs : List (Bool × Nat)) (items : List JsonVal) (db : DB) :
    List Detail :=
  (importResult envs items db).1

/-- The success tally of the JSON import loop. -/
def importSucc (envs : List (Bool × Nat)) (items : List JsonVal) (db : DB) : Nat :=
  (importResult envs items db).2.1

/-- The failure tally of the JSON import loop. -/
def importFail (envs : List (Bool × Nat)) (items : List JsonVal) (db : DB) : Nat :=
  (importResult envs items db).2.2.1

/-- The storage state after the JSON import loop. -/
def importFinalDB (envs : List (Bool × Nat)) (items : List JsonVal) (db : DB) : DB :=
  (importResult envs items db).2.2.2

lemma dbInv_init : dbInv init_database := by
  refine ⟨?_, ?_, ?_, ?_⟩ <;> simp [init_database]

lemma dbInv_add (f : Bool) (dt : Nat) (a b c : JsonVal) (db : DB) (h : dbInv db) :
    dbInv (add_document f dt a b c db).2 := by
  obtain ⟨h1, h2, h3, h4⟩ := h
  simp only [add_document]
  split
  · exact ⟨h1, fun r hr => le_trans (h2 r hr) (Nat.le_add_right _ _), h3, h4⟩
  · refine ⟨?_, ?_, ?_, ?_⟩
    · intro r hr
      rcases List.mem_append.1 hr with hm | hm
      · exact Nat.lt_trans (h1 r hm) (Nat.lt_succ_self _)
      · simp at hm; subst hm; exact Nat.lt_succ_self _
    · intro r hr
      rcases List.mem_append.1 hr with hm | hm
      · exact le_trans (h2 r hm) (Nat.le_add_right _ _)
      · simp at hm; subst hm; exact le_refl _
    · refine List.chain'_append.2 ⟨h3, List.chain'_singleton _, ?_⟩
      intro x hx y hy
      simp at hy; subst hy
      exact h1 x (List.mem_of_mem_getLast? hx)
    · refine List.chain'_append.2 ⟨h4, List.chain'_singleton _, ?_⟩
      intro x hx y hy
      simp at hy; subst hy
      exact le_trans (h2 x (List.mem_of_mem_getLast? hx)) (Nat.le_add_right _ _)

lemma runInserts_inv (reqs : List InsertReq) :
    ∀ db : DB, dbInv db → dbInv (runInserts reqs db) := by
  induction reqs with
  | nil => exact fun db h => h
  | cons q qs ih =>
    intro db h
    exact ih _ (dbInv_add q.fault q.dt q.doc_type q.identifier q.data_dict db h)

/-- Claim C3: the intent classifier lower-cases the text, returns "query"
when any query-indicating keyword is present, otherwise "store" when any
store-indicating keyword is present, otherwise defaults to "query"; and
classifying "帮我查询张三的记录" yields "query". -/
theorem c3_analyze_classification :
    (∀ text : String,
        (query_keywords.any (fun k => isSubstrS k (toLowerStr text)) = true →
          analyze text = "query")
      ∧ (query_keywords.any (fun k => isSubstrS k (toLowerStr text)) = false →
          store_keywords.any (fun k => isSubstrS k (toLowerStr text)) = true →
          analyze text = "store")
      ∧ (query_keywords.any (fun k => isSubstrS k (toLowerStr text)) = false →
          store_keywords.any (fun k => isSubstrS k (toLowerStr text)) = false →
          analyze text = "query"))
    ∧ analyze "帮我查询张三的记录" = "query" := by
  refine ⟨fun text => ⟨?_, ?_, ?_⟩, by decide⟩
  · intro h1; simp [analyze, h1]
  · intro h1 h2; simp [analyze, h1, h2]
  · intro h1 h2; simp [analyze, h1, h2]

theorem c3_witness : analyze "保存一下" = "store" :=
  (c3_analyze_classification.1 "保存一下").2.1 (by decide) (by decide)

/-- Claim C6: over any sequence of inserts starting from the fresh store,
row ids are strictly increasing in insertion order (hence unique) and
created_time is non-decreasing in insertion order. -/
theorem c6_ids_strictly_increasing (reqs : List InsertReq) :
    List.Chain' (fun a b => a.id < b.id) (runInserts reqs init_database).rows
  ∧ ((runInserts reqs init_database).rows.map Row.id).Nodup
  ∧ List.Chain' (fun a b => a.created_time ≤ b.created_time)
      (runInserts reqs init_database).rows := by
  obtain ⟨-, -, h3, h4⟩ := runInserts_inv reqs init_database dbInv_init
  refine ⟨h3, ?_, h4⟩
  letI : IsTrans Row (fun a b => a.id < b.id) := ⟨fun _ _ _ => Nat.lt_trans⟩
  have hp : List.Pairwise (fun a b => a.id < b.id) (runInserts reqs init_database).rows :=
    List.chain'_iff_pairwise.1 h3
  exact List.pairwise_map.2 (hp.imp fun h => Nat.ne_of_lt h)

/-- Claim C7: every document returned by the query operation comes from a
stored row; its data is the deserialized JSON value of the stored text
when deserialization succeeds and the raw stored text otherwise, and the
mapping is total (deserialization failure cannot raise). -/
theorem c7_query_loads_fallback (loads : String → Option JsonVal)
    (search_text doc_type : Option String) (limit : Nat) (db : DB) (d : Doc)
    (hd : d ∈ query_documents loads search_text doc_type limit db) :
    ∃ r ∈ query_rows search_text doc_type limit db, d = toDoc loads r ∧
      ((∃ v, loads r.data = some v ∧ d.data = v) ∨
       (loads r.data = none ∧ d.data = .str r.data)) := by
  rcases List.mem_map.1 hd with ⟨r, hr, rfl⟩
  refine ⟨r, hr, rfl, ?_⟩
  cases hl : loads r.data with
  | none => exact Or.inr ⟨rfl, by simp [toDoc, hl]⟩
  | some v => exact Or.inl ⟨v, rfl, by simp [toDoc, hl]⟩

theorem c7_witness :
    ∃ r ∈ query_rows none none 50 dbRawRow,
      toDoc (fun _ => none) rawRow = toDoc (fun _ => none) r ∧
      ((∃ v, (fun _ => (none : Option JsonVal)) r.data = some v ∧
             (toDoc (fun _ => none) rawRow).data = v) ∨
       ((fun _ => (none : Option JsonVal)) r.data = none ∧
        (toDoc (fun _ => none) rawRow).data = .str r.data)) := by
  have hd : toDoc (fun _ => none) rawRow
      ∈ query_documents (fun _ => none) none none 50 dbRawRow := by
    rw [show query_documents (fun _ => none) none none 50 dbRawRow
        = [toDoc (fun _ => none) rawRow] from rfl]
    exact List.mem_singleton.2 rfl
  rcases c7_query_loads_fallback (fun _ => none) none none 50 dbRawRow _ hd with ⟨r, hr, hde, hca⟩
  exact ⟨r, hr, hde, by simpa using hca⟩

lemma mem_query_rows {search_text doc_type : Option String} {limit : Nat}
    {db : DB} {r : Row} (hr : r ∈ query_rows search_text doc_type limit db) :
    r ∈ db.rows ∧ rowMatches search_text doc_type r = true := by
  have h1 : r ∈ List.insertionSort newerFirst (db.rows.filter (rowMatches search_text doc_type)) :=
    List.take_subset _ _ hr
  have h2 : r ∈ db.rows.filter (rowMatches search_text doc_type) :=
    (List.perm_insertionSort newerFirst _).subset h1
  exact ⟨List.mem_of_mem_filter h2, List.of_mem_filter h2⟩

/-- Claim C4 (amended): when a non-empty doc_type filter is given, every
returned row's doc_type equals it exactly; when a non-empty search_text is
given, every returned row's stored payload matches the SQL pattern
`%search_text%` under SQLite LIKE semantics (ASCII-case-insensitive, with
`%`/`_` wildcards) — not plain substring containment; results are ordered
newest-first by creation time; at most `limit` rows are returned; and the
returned documents are exactly these rows run through deserialization. -/
theorem c4_query_semantics (search_text doc_type : Option String) (limit : Nat)
    (db : DB) :
    (∀ r ∈ query_rows search_text doc_type limit db,
        (∀ s, doc_type = some s → s ≠ "" → r.doc_type = some s)
      ∧ (∀ s, search_text = some s → s ≠ "" →
          sqlLike ("%" ++ s ++ "%") r.data = true))
  ∧ List.Pairwise newerFirst (query_rows search_text doc_type limit db)
  ∧ (query_rows search_text doc_type limit db).length ≤ limit
  ∧ ∀ loads, query_documents loads search_text doc_type limit db =
      (query_rows search_text doc_type limit db).map (toDoc loads) := by
  refine ⟨?_, ?_, List.length_take_le _ _, fun loads => rfl⟩
  · intro r hr
    have hm := (mem_query_rows hr).2
    constructor
    · intro s hs hne
      subst hs
      simp only [rowMatches, Bool.and_eq_true] at hm
      have h1 := hm.1
      rw [if_neg (show ¬((s == "") = true) by simpa using hne)] at h1
      simpa using h1
    · intro s hs hne
      subst hs
      simp only [rowMatches, Bool.and_eq_true] at hm
      have h2 := hm.2
      rw [if_neg (show ¬((s == "") = true) by simpa using hne)] at h2
      exact h2
  · exact List.Pairwise.sublist (List.take_sublist _ _)
      (List.sorted_insertionSort newerFirst _)

/-- Claim C4 is false as stated: searching for "A" returns the stored row
(SQLite LIKE is ASCII-case-insensitive), yet "A" is not a substring of the
serialized payload. -/
theorem c4_counterexample :
    query_rows (some "A") none 50 dbLikeCex = [likeCexRow]
  ∧ isSubstrS "A" likeCexRow.data = false := by decide

theorem c4_witness :
    likeCexRow.doc_type = some "x"
  ∧ sqlLike ("%" ++ "a" ++ "%") likeCexRow.data = true := by
  have h := c4_query_semantics (some "a") (some "x") 50 dbLikeCex
  have hmem : likeCexRow ∈ query_rows (some "a") (some "x") 50 dbLikeCex := by decide
  exact ⟨((h.1 likeCexRow hmem).1 "x" rfl (by decide)),
         ((h.1 likeCexRow hmem).2 "a" rfl (by decide))⟩

lemma mem_take_of_count_le {l : List Row} (hs : List.Pairwise newerFirst l)
    {x : Row} (hx : x ∈ l) {t : Nat} (hxt : t ≤ x.created_time) :
    ∀ {lim : Nat}, l.countP (fun r => decide (t ≤ r.created_time)) ≤ lim →
    x ∈ l.take lim := by
  induction l with
  | nil => cases hx
  | cons a tl ih =>
    intro lim hcnt
    cases lim with
    | zero =>
      exfalso
      have hpos : 0 < (a :: tl).countP (fun r => decide (t ≤ r.created_time)) :=
        List.countP_pos_iff.2 ⟨x, hx, by simpa using hxt⟩
      omega
    | succ m =>
      rcases List.mem_cons.1 hx with rfl | hx2
      · rw [List.take_succ_cons]
        exact List.mem_cons_self _ _
      · have hax : newerFirst a x := (List.pairwise_cons.1 hs).1 x hx2
        have hta : t ≤ a.created_time := le_trans hxt hax
        have hcc : (a :: tl).countP (fun r => decide (t ≤ r.created_time)) =
            tl.countP (fun r => decide (t ≤ r.created_time)) + 1 := by
          rw [List.countP_cons]
          simp [hta]
        have hcnt2 : tl.countP (fun r => decide (t ≤ r.created_time)) ≤ m := by omega
        rw [List.take_succ_cons]
        exact List.mem_cons_of_mem _
          (ih (List.pairwise_cons.1 hs).2 hx2 hcnt2)

lemma rowMatches_none_none (r : Row) : rowMatches none none r = true := rfl

/-- Claim C5 (amended): after a successful insert, the new row is returned
by an unfiltered query provided fewer than `limit` previously stored rows
carry a created_time at or above the new row's timestamp (in particular
whenever the store held fewer than `limit` rows); and a query filtered to
a NON-EMPTY doc_type different from the stored doc_type text does not
return it.  (An empty-string doc_type filter is falsy in Python and is
dropped, so it excludes nothing; and with `limit` equal-time rows already
stored, the unfiltered query cuts the new row off.) -/
theorem c5_insert_query_roundtrip (dt : Nat) (a b dd : JsonVal) (db : DB)
    (lim : Nat) (hba : bindable a = true) (hbb : bindable b = true)
    (hcnt : db.rows.countP (fun r => decide (db.clock + dt ≤ r.created_time)) < lim) :
    ({ id := db.nextId, doc_type := toBindText a, identifier := toBindText b,
       data := dumps dd, created_time := db.clock + dt } : Row)
      ∈ query_rows none none lim (add_document false dt a b dd db).2
  ∧ ∀ s : String, s ≠ "" → toBindText a ≠ some s →
      ({ id := db.nextId, doc_type := toBindText a, identifier := toBindText b,
         data := dumps dd, created_time := db.clock + dt } : Row)
        ∉ query_rows none (some s) lim (add_document false dt a b dd db).2 := by
  have hdb2 : (add_document false dt a b dd db).2 =
      { rows := db.rows ++
          [{ id := db.nextId, doc_type := toBindText a, identifier := toBindText b,
             data := dumps dd, created_time := db.clock + dt }],
        nextId := db.nextId + 1, clock := db.clock + dt } := by
    simp [add_document, hba, hbb]
  constructor
  · rw [hdb2, query_rows]
    have hfilter : List.filter (rowMatches none none)
        (db.rows ++
          [{ id := db.nextId, doc_type := toBindText a, identifier := toBindText b,
             data := dumps dd, created_time := db.clock + dt }]) =
        db.rows ++
          [{ id := db.nextId, doc_type := toBindText a, identifier := toBindText b,
             data := dumps dd, created_time := db.clock + dt }] := by
      simp [List.filter_eq_self, rowMatches_none_none]
    rw [hfilter]
    apply mem_take_of_count_le (List.sorted_insertionSort newerFirst _)
    · exact (List.perm_insertionSort newerFirst _).mem_iff.2
        (List.mem_append_right _ (List.mem_singleton.2 rfl))
    · exact le_refl (db.clock + dt)
    · rw [(List.perm_insertionSort newerFirst _).countP_eq]
      rw [List.countP_append]
      have : List.countP (fun r => decide (db.clock + dt ≤ r.created_time))
          [({ id := db.nextId, doc_type := toBindText a, identifier := toBindText b,
              data := dumps dd, created_time := db.clock + dt } : Row)] = 1 := by
        simp
      omega
  · intro s hs hne hmem
    have hm := (mem_query_rows hmem).2
    simp only [rowMatches, Bool.and_eq_true] at hm
    have h1 := hm.1
    rw [if_neg (show ¬((s == "") = true) by simpa using hs)] at h1
    exact hne (by simpa using h1)

/-- Claim C5 is false as stated, in both directions: (1) a query filtered
to doc_type "" — which differs from the stored doc_type "x" — still
returns the freshly inserted document (the falsy filter is dropped); and
(2) after the 51st same-second insert, the unfiltered query (limit 50)
does not return the new document (id 51), although it is stored. -/
theorem c5_counterexample :
    query_rows none (some "") 50 dbEmptyFilterCex = [emptyFilterRow]
  ∧ emptyFilterRow.doc_type = some "x"
  ∧ ((query_rows none none 50 db51).map Row.id).contains 51 = false
  ∧ (db51.rows.map Row.id).contains 51 = true
  ∧ db51.rows.length = 51 := by decide

theorem c5_witness :
    ({ id := 1, doc_type := toBindText (.str "x"), identifier := toBindText .null,
       data := dumps (.obj []), created_time := 1 } : Row)
      ∈ query_rows none none 50 (add_document false 1 (.str "x") .null (.obj []) init_database).2 :=
  (c5_insert_query_roundtrip 1 (.str "x") .null (.obj []) init_database 50
    (by decide) (by decide) (by decide)).1

lemma add_document_ok_isSome (f : Bool) (dt : Nat) (a b c : JsonVal) (db : DB)
    (h : (add_document f dt a b c db).1.1 = true) :
    (add_document f dt a b c db).1.2.isSome = true := by
  simp only [add_document] at h ⊢
  split at h
  · simp at h
  · simp_all

lemma import_items_spec (items : List JsonVal) :
    ∀ (envs : List (Bool × Nat)) (db : DB), (∀ it ∈ items, isObjB it = true) →
    ∃ ds db2,
      import_items envs items db =
        .ok (ds, ds.countP Detail.ok, ds.countP (fun d => !d.ok), db2)
      ∧ ds.map Detail.item = items
      ∧ ds.all (fun d => !d.ok || d.newId.isSome) = true := by
  induction items with
  | nil => exact fun envs db _ => ⟨[], db, rfl, rfl, rfl⟩
  | cons it rest ih =>
    intro envs db h
    have hobj : isObjB it = true := h it (List.mem_cons_self _ _)
    obtain ⟨kvs, rfl⟩ : ∃ kvs, it = JsonVal.obj kvs := by
      cases it <;> simp [isObjB] at hobj
      exact ⟨_, rfl⟩
    obtain ⟨ds, db2, heq, hmap, hall⟩ :=
      ih envs.tail
        (add_document (envs.headD (false, 0)).1 (envs.headD (false, 0)).2
          (dict_get kvs "doc_type") (dict_get kvs "identifier") (build_data kvs) db).2
        (fun x hx => h x (List.mem_cons_of_mem _ hx))
    cases hok : (add_document (envs.headD (false, 0)).1 (envs.headD (false, 0)).2
        (dict_get kvs "doc_type") (dict_get kvs "identifier") (build_data kvs) db).1.1 with
    | true =>
      refine ⟨⟨.obj kvs, true,
          (add_document (envs.headD (false, 0)).1 (envs.headD (false, 0)).2
            (dict_get kvs "doc_type") (dict_get kvs "identifier") (build_data kvs) db).1.2⟩ :: ds,
        db2, ?_, ?_, ?_⟩
      · simp only [import_items, heq, hok, if_true]
        simp [List.countP_cons, Detail.ok]
      · simpa using hmap
      · have hsome := add_document_ok_isSome _ _ _ _ _ _ hok
        simp only [List.all_cons, hall, Bool.and_true]
        simpa using hsome
    | false =>
      refine ⟨⟨.obj kvs, false,
          (add_document (envs.headD (false, 0)).1 (envs.headD (false, 0)).2
            (dict_get kvs "doc_type") (dict_get kvs "identifier") (build_data kvs) db).1.2⟩ :: ds,
        db2, ?_, ?_, ?_⟩
      · simp only [import_items, heq, hok, if_false]
        simp [List.countP_cons, Detail.ok]
      · simpa using hmap
      · simp only [List.all_cons, hall, Bool.and_true]
        simp

/-- Claim C1 (amended): for a JSON array all of whose items are objects,
the import endpoint returns HTTP 200 whose body reports
`summary.success` = the number of items whose insert succeeded,
`summary.fail` = the number whose insert failed (so success + fail = N),
and a `details` list with exactly one entry per item in order, echoing the
item, its status, and — for successful items — its assigned id; no item's
failure aborts the batch.  (An array containing a NON-OBJECT item does
abort the whole batch with a 500 error — see the counterexample.) -/
theorem c1_import_batch_tally (envs : List (Bool × Nat)) (items : List JsonVal)
    (db : DB) (h : ∀ it ∈ items, isObjB it = true) :
    api_import envs (.json (.arr items)) db =
      (⟨200, importOkBody (importSucc envs items db) (importFail envs items db)
          ((importDetails envs items db).map detailToJson)⟩,
       importFinalDB envs items db)
  ∧ (importDetails envs items db).map Detail.item = items
  ∧ (importDetails envs items db).length = items.length
  ∧ importSucc envs items db = (importDetails envs items db).countP Detail.ok
  ∧ importFail envs items db =
      (importDetails envs items db).countP (fun d => !d.ok)
  ∧ importSucc envs items db + importFail envs items db = items.length
  ∧ (importDetails envs items db).all (fun d => !d.ok || d.newId.isSome) = true := by
  obtain ⟨ds, db2, heq, hmap, hall⟩ := import_items_spec items envs db h
  have hres : importResult envs items db =
      (ds, ds.countP Detail.ok, ds.countP (fun d => !d.ok), db2) := by
    simp [importResult, heq]
  have hdet : importDetails envs items db = ds := by simp [importDetails, hres]
  have hsucc : importSucc envs items db = ds.countP Detail.ok := by
    simp [importSucc, hres]
  have hfail : importFail envs items db = ds.countP (fun d => !d.ok) := by
    simp [importFail, hres]
  have hfdb : importFinalDB envs items db = db2 := by simp [importFinalDB, hres]
  have hlen : ds.length = items.length := by
    rw [← hmap, List.length_map]
  refine ⟨?_, by rw [hdet]; exact hmap, by rw [hdet]; exact hlen,
    by rw [hdet, hsucc], by rw [hdet, hfail], ?_, by rw [hdet]; exact hall⟩
  · rw [hdet, hsucc, hfail, hfdb]
    simp [api_import, heq]
  · rw [hsucc, hfail, ← hlen]
    have := List.length_eq_countP_add_countP Detail.ok ds
    simpa using this.symm

/-- Claim C1 is false as stated: a JSON array whose second item is not an
object (here `null`) makes `it.get` raise inside the loop; the handler-wide
except turns the whole request into a 500 with no summary and no details,
even though the first item had already been inserted — the batch is
aborted rather than tallied. -/
theorem c1_counterexample :
    (api_import [] (.json (.arr [.obj [("a", .num 1)], .null])) init_database).1.status = 500
  ∧ (bodyField (api_import [] (.json (.arr [.obj [("a", .num 1)], .null])) init_database).1
      "summary").isNone = true
  ∧ (bodyField (api_import [] (.json (.arr [.obj [("a", .num 1)], .null])) init_database).1
      "details").isNone = true
  ∧ (api_import [] (.json (.arr [.obj [("a", .num 1)], .null])) init_database).2.rows.length = 1 := by
  decide

theorem c1_witness :
    api_import [(true, 0), (false, 1)]
        (.json (.arr [.obj [("doc_type", .str "student"), ("name", .str "张三")],
                      .obj [("b", .null)]])) init_database =
      (⟨200, importOkBody
          (importSucc [(true, 0), (false, 1)]
            [.obj [("doc_type", .str "student"), ("name", .str "张三")],
             .obj [("b", .null)]] init_database)
          (importFail [(true, 0), (false, 1)]
            [.obj [("doc_type", .str "student"), ("name", .str "张三")],
             .obj [("b", .null)]] init_database)
          ((importDetails [(true, 0), (false, 1)]
            [.obj [("doc_type", .str "student"), ("name", .str "张三")],
             .obj [("b", .null)]] init_database).map detailToJson)⟩,
       importFinalDB [(true, 0), (false, 1)]
         [.obj [("doc_type", .str "student"), ("name", .str "张三")],
          .obj [("b", .null)]] init_database)
  ∧ (importDetails [(true, 0), (false, 1)]
      [.obj [("doc_type", .str "student"), ("name", .str "张三")],
       .obj [("b", .null)]] init_database).map Detail.item =
      [.obj [("doc_type", .str "student"), ("name", .str "张三")], .obj [("b", .null)]]
  ∧ (importDetails [(true, 0), (false, 1)]
      [.obj [("doc_type", .str "student"), ("name", .str "张三")],
       .obj [("b", .null)]] init_database).length =
      ([JsonVal.obj [("doc_type", .str "student"), ("name", .str "张三")],
        JsonVal.obj [("b", .null)]] : List JsonVal).length
  ∧ importSucc [(true, 0), (false, 1)]
      [.obj [("doc_type", .str "student"), ("name", .str "张三")],
       .obj [("b", .null)]] init_database =
      (importDetails [(true, 0), (false, 1)]
        [.obj [("doc_type", .str "student"), ("name", .str "张三")],
         .obj [("b", .null)]] init_database).countP Detail.ok
  ∧ importFail [(true, 0), (false, 1)]
      [.obj [("doc_type", .str "student"), ("name", .str "张三")],
       .obj [("b", .null)]] init_database =
      (importDetails [(true, 0), (false, 1)]
        [.obj [("doc_type", .str "student"), ("name", .str "张三")],
         .obj [("b", .null)]] init_database).countP (fun d => !d.ok)
  ∧ importSucc [(true, 0), (false, 1)]
      [.obj [("doc_type", .str "student"), ("name", .str "张三")],
       .obj [("b", .null)]] init_database +
    importFail [(true, 0), (false, 1)]
      [.obj [("doc_type", .str "student"), ("name", .str "张三")],
       .obj [("b", .null)]] init_database =
      ([JsonVal.obj [("doc_type", .str "student"), ("name", .str "张三")],
        JsonVal.obj [("b", .null)]] : List JsonVal).length
  ∧ (importDetails [(true, 0), (false, 1)]
      [.obj [("doc_type", .str "student"), ("name", .str "张三")],
       .obj [("b", .null)]] init_database).all (fun d => !d.ok || d.newId.isSome) = true :=
  c1_import_batch_tally [(true, 0), (false, 1)]
    [.obj [("doc_type", .str "student"), ("name", .str "张三")], .obj [("b", .null)]]
    init_database (by decide)

/-- Claim C8 (amended): a request whose body PARSES as JSON but not as an
array, and a request that is neither JSON nor a file upload, each get an
HTTP 400 error envelope and leave the store untouched.  The 400 is NOT
universal over non-array non-file bodies, though: a request with JSON
content type whose body fails to parse makes `request.get_json()` raise
inside the handler's try, and the handler-wide except answers 500 (still
inserting nothing).  Nor is the named shape violation the only way the
whole operation fails: a JSON array containing a non-object item also
fails the whole operation with a 500 — see the counterexample. -/
theorem c8_non_array_input (envs : List (Bool × Nat)) (db : DB) :
    (∀ v : JsonVal, isArrB v = false →
       api_import envs (.json v) db =
         (⟨400, .obj [("status", .str "error"), ("message", .str "JSON 必须是数组")]⟩, db))
  ∧ api_import envs .other db =
      (⟨400, .obj [("status", .str "error"),
                   ("message", .str "请上传 JSON 数组或 CSV 文件")]⟩, db)
  ∧ api_import envs .badJson db =
      (⟨500, .obj [("status", .str "error")]⟩, db) := by
  refine ⟨?_, rfl, rfl⟩
  intro v hv
  cases v <;> simp [isArrB] at hv ⊢ <;> rfl

/-- Claim C8 is false as stated, twice over.  First, its universal 400: a
JSON-mimetype request with a malformed body is neither a JSON array nor an
uploaded file, yet `get_json()` raises and the endpoint answers 500, not
400 (nothing is inserted).  Second, its "only this input shape violation
fails the whole operation" clause: the body `[42]` IS a JSON array (so not
the named shape violation), yet the whole operation fails with a 500. -/
theorem c8_counterexample :
    (api_import [] .badJson init_database).1.status = 500
  ∧ (api_import [] .badJson init_database).2 = init_database
  ∧ isArrB (.arr [.num 42]) = true
  ∧ (api_import [] (.json (.arr [.num 42])) init_database).1.status = 500
  ∧ (api_import [] (.json (.arr [.num 42])) init_database).2 = init_database := by
  decide

theorem c8_witness :
    api_import [] (.json (.num 3)) init_database =
      (⟨400, .obj [("status", .str "error"), ("message", .str "JSON 必须是数组")]⟩,
       init_database) :=
  (c8_non_array_input [] init_database).1 (.num 3) (by decide)

/-- Claim C9: a JSON item without an explicit `data` object stores exactly
its fields minus the reserved keys `doc_type`/`identifier`; a CSV row
stores exactly its columns minus those keys, with string values; and a
successful insert stores precisely the JSON serialization of that mapping. -/
theorem c9_reserved_key_stripping :
    (∀ kvs : List (String × JsonVal), hasDataObj kvs = false →
       build_data kvs =
         .obj (kvs.filter (fun kv => !(kv.1 == "doc_type" || kv.1 == "identifier"))))
  ∧ (∀ row : List (String × String),
       build_csv_data row =
         .obj ((row.filter (fun kv => !(kv.1 == "doc_type" || kv.1 == "identifier"))).map
                 (fun kv => (kv.1, JsonVal.str kv.2))))
  ∧ (∀ (f : Bool) (dt : Nat) (a b dd : JsonVal) (db : DB),
       (add_document f dt a b dd db).1.1 = true →
       (add_document f dt a b dd db).2.rows =
         db.rows ++ [{ id := db.nextId, doc_type := toBindText a,
                       identifier := toBindText b, data := dumps dd,
                       created_time := db.clock + dt }]) := by
  refine ⟨?_, fun row => rfl, ?_⟩
  · intro kvs h
    unfold hasDataObj at h
    unfold build_data
    cases hl : kvs.lookup "data" with
    | none => rfl
    | some v =>
      rw [hl] at h
      cases v <;> simp_all
  · intro f dt a b dd db h
    simp only [add_document] at h ⊢
    split at h
    · simp at h
    · simp_all

theorem c9_witness :
    build_data [("doc_type", .str "student"), ("identifier", .str "s1"),
                ("name", .str "张三"), ("age", .num 20)] =
      .obj (([("doc_type", JsonVal.str "student"), ("identifier", JsonVal.str "s1"),
              ("name", JsonVal.str "张三"), ("age", JsonVal.num 20)] :
              List (String × JsonVal)).filter
        (fun kv => !(kv.1 == "doc_type" || kv.1 == "identifier"))) :=
  c9_reserved_key_stripping.1
    [("doc_type", .str "student"), ("identifier", .str "s1"),
     ("name", .str "张三"), ("age", .num 20)] (by decide)

/-- Claim C10 (amended): for every JSON OBJECT body — even one omitting
student_name or content — the record endpoint performs no validation: it
attempts the insert of a "record" document whose payload carries null for
the missing fields, and when the insert succeeds it returns status
"success".  (A non-object JSON body, however, raises before the insert and
surfaces as a 500 — see the counterexample.) -/
lemma add_document_success (dt : Nat) (a b dd : JsonVal) (db : DB)
    (hba : bindable a = true) (hbb : bindable b = true) :
    add_document false dt a b dd db =
      ((true, some db.nextId),
       { rows := db.rows ++
           [{ id := db.nextId, doc_type := toBindText a, identifier := toBindText b,
              data := dumps dd, created_time := db.clock + dt }],
         nextId := db.nextId + 1, clock := db.clock + dt }) := by
  simp [add_document, hba, hbb]

theorem c10_record_no_validation (dt : Nat) (ts : String)
    (kvs : List (String × JsonVal)) (db : DB)
    (hsn : bindable (dict_get kvs "student_name") = true) :
    api_record false dt ts (.obj kvs) db =
      .ok (⟨200, .obj [("status", .str "success"), ("message", .str "记录已添加")]⟩,
           { rows := db.rows ++
               [{ id := db.nextId, doc_type := some "record",
                  identifier := toBindText (dict_get kvs "student_name"),
                  data := dumps (.obj [("student_name", dict_get kvs "student_name"),
                                       ("record_type",
                                         (kvs.lookup "record_type").getD (.str "record")),
                                       ("content", dict_get kvs "content"),
                                       ("time", .str ts)]),
                  created_time := db.clock + dt }],
             nextId := db.nextId + 1, clock := db.clock + dt })
  ∧ (kvs.lookup "student_name" = none → dict_get kvs "student_name" = .null)
  ∧ (kvs.lookup "content" = none → dict_get kvs "content" = .null) := by
  refine ⟨?_, fun h => by simp [dict_get, h], fun h => by simp [dict_get, h]⟩
  have hadd := add_document_success dt (.str "record") (dict_get kvs "student_name")
    (.obj [("student_name", dict_get kvs "student_name"),
           ("record_type", (kvs.lookup "record_type").getD (.str "record")),
           ("content", dict_get kvs "content"), ("time", .str ts)]) db rfl hsn
  simp [api_record, hadd, toBindText]

/-- Claim C10 is false as stated over every JSON body: a body that is a
JSON array makes `data.get` raise, so Flask answers 500 and nothing is
inserted — no "record" document is stored and no "success" is returned. -/
theorem c10_counterexample :
    api_record false 0 "t" (.arr []) init_database = .error init_database := by rfl

theorem c10_witness :
    api_record false 0 "2024-01-01T00:00:00" (.obj []) init_database =
      .ok (⟨200, .obj [("status", .str "success"), ("message", .str "记录已添加")]⟩,
           { rows := init_database.rows ++
               [{ id := init_database.nextId, doc_type := some "record",
                  identifier := toBindText (dict_get [] "student_name"),
                  data := dumps (.obj [("student_name", dict_get [] "student_name"),
                                       ("record_type",
                                         (([] : List (String × JsonVal)).lookup
                                            "record_type").getD (.str "record")),
                                       ("content", dict_get [] "content"),
                                       ("time", .str "2024-01-01T00:00:00")]),
                  created_time := init_database.clock + 0 }],
             nextId := init_database.nextId + 1, clock := init_database.clock + 0 })
  ∧ (([] : List (String × JsonVal)).lookup "student_name" = none →
      dict_get [] "student_name" = .null)
  ∧ (([] : List (String × JsonVal)).lookup "content" = none →
      dict_get [] "content" = .null) :=
  c10_record_no_validation 0 "2024-01-01T00:00:00" [] init_database (by decide)

/-- Claim C2 (amended): when the outbound call itself fails (any raise
inside the client: network error, non-2xx status, unparsable body), the
chat endpoint still answers HTTP 200 with the prefixed — not fixed —
error text "AI 服务错误：" followed by the exception message; and when the
call yields a JSON object without an "error" member, the endpoint answers
HTTP 200 with either the extracted completion content or the fixed string
"AI 响应解析失败".  However, some unexpected response shapes (a non-container
JSON value, or an "error" member holding a non-string) raise outside the
guarded block and DO surface as a server fault — see the counterexample. -/
theorem c2_chat_error_containment :
    (∀ (e : String) (fault : Bool) (dt : Nat) (ts msg : String)
       (name : Option String) (db : DB),
       ∃ db2, chat fault dt ts msg name (.error e) db =
         .ok (⟨200, .obj [("status", .str "success"),
                          ("response", .str ("AI 服务错误：" ++ e))]⟩, db2))
  ∧ (∀ (kvs : List (String × JsonVal)) (fault : Bool) (dt : Nat) (ts msg : String)
       (name : Option String) (db : DB),
       kvs.any (fun kv => kv.1 == "error") = false →
       ∃ v db2, chat fault dt ts msg name (.ok (.obj kvs)) db =
           .ok (⟨200, .obj [("status", .str "success"), ("response", v)]⟩, db2)
         ∧ ((∃ c, extract_content (.obj kvs) = some c ∧ v = c)
            ∨ (extract_content (.obj kvs) = none ∧ v = .str "AI 响应解析失败"))) := by
  constructor
  · intro e fault dt ts msg name db
    refine ⟨if analyze msg = "query" then db
            else (add_document fault dt (.str "record") (optStr name)
                    (.obj [("student_name", optStr name), ("content", .str msg),
                           ("time", .str ts)]) db).2, ?_⟩
    simp [chat, chat_completion, reply, pyContainsKey, pyGetItem, pyStrAdd]
  · intro kvs fault dt ts msg name db h
    have hc : pyContainsKey "error" (.obj kvs) = .ok false := by
      simp [pyContainsKey, h]
    cases hex : extract_content (.obj kvs) with
    | none =>
      refine ⟨.str "AI 响应解析失败",
        if analyze msg = "query" then db
        else (add_document fault dt (.str "record") (optStr name)
                (.obj [("student_name", optStr name), ("content", .str msg),
                       ("time", .str ts)]) db).2, ?_, Or.inr ⟨rfl, rfl⟩⟩
      simp [chat, chat_completion, reply, hc, hex]
    | some c =>
      refine ⟨c,
        if analyze msg = "query" then db
        else (add_document fault dt (.str "record") (optStr name)
                (.obj [("student_name", optStr name), ("content", .str msg),
                       ("time", .str ts)]) db).2, ?_, Or.inl ⟨c, rfl, rfl⟩⟩
      simp [chat, chat_completion, reply, hc, hex]

/-- Claim C2 is false as stated: a 2xx response whose JSON body is the bare
number 3 is an "unexpected shape", but `"error" in res` raises a TypeError
outside any try, the handler propagates it, and Flask answers with a 5xx
server fault instead of an HTTP success. -/
theorem c2_counterexample :
    chat false 0 "t" "hi" none (.ok (.num 3)) init_database =
      .error init_database := by rfl

theorem c2_witness :
    ∃ v db2, chat false 0 "t" "你好" none (.ok (.obj [("id", .str "x")])) init_database =
        .ok (⟨200, .obj [("status", .str "success"), ("response", v)]⟩, db2)
      ∧ ((∃ c, extract_content (.obj [("id", .str "x")]) = some c ∧ v = c)
         ∨ (extract_content (.obj [("id", .str "x")]) = none ∧
            v = .str "AI 响应解析失败")) :=
  c2_chat_error_containment.2 [("id", .str "x")] false 0 "t" "你好" none
    init_database (by decide)
